import Mathlib

/-!
Verification of the CLI-buddy command-line shell (src/main.py).

The program is modelled as a pure function from the parsed invocation to a
trace of terminal effects.  Each side-effecting call in the Python source
(`console.clear()`, `console.print(...)`, `time.sleep(...)`) becomes one
event in the trace, in source order.  Durations are modelled as rationals
(the source uses an exact literal 2.0).
-/

namespace CLIBuddy

/-- A styled text segment, as built by `Text.append(text, style=...)`. -/
structure TextSegment where
  text : String
  style : String
deriving DecidableEq, Repr

/-- A rich `Text` object: an ordered list of styled segments. -/
structure RichText where
  segments : List TextSegment
deriving DecidableEq, Repr

/-- A rich `Panel`: content inside a bordered container, with a border
style, padding, and a subtitle caption attached to the border. -/
structure RichPanel where
  content : RichText
  border_style : String
  padding : Nat × Nat
  subtitle : String
deriving DecidableEq, Repr

/-- An `Align` wrapper around a panel, recording the horizontal alignment
method and the `vertical` keyword argument. -/
structure AlignedPanel where
  panel : RichPanel
  horizontal : String
  vertical : String
deriving DecidableEq, Repr

/-- One terminal effect performed by the program. -/
inductive Event where
  | clear : Event
  | render : AlignedPanel → Event
  | sleep : ℚ → Event
  | print : String → Event
deriving DecidableEq, Repr

/-- `splash_title` from the source: two appended segments. -/
def splash_title : RichText :=
  ⟨[⟨"\n CLI Buddy v0.1.0", "bold white"⟩,
    ⟨"\n Author <Iurii Golubnichenko aka Ghost Rider>", "dim white"⟩]⟩

/-- The `Panel` constructed in `show_splash_window`. -/
def splash_panel : RichPanel :=
  { content := splash_title
    border_style := "bright_blue"
    padding := (1, 4)
    subtitle := "[dim]Loading ... [/dim]" }

/-- `Align.center(panel, vertical="middle")` from the source. -/
def centered : AlignedPanel :=
  { panel := splash_panel, horizontal := "center", vertical := "middle" }

/-- `show_splash_window(duration=2.0)`: clear, render the centered panel,
sleep for `duration`, clear again. -/
def show_splash_window (duration : ℚ := 2) : List Event :=
  [Event.clear, Event.render centered, Event.sleep duration, Event.clear]

/-- The trace of the `info` subcommand handler: a single styled print. -/
def info_command : List Event :=
  [Event.print "[bold] Info command [/bold]"]

/-- The registered subcommands of the app (only `info`). -/
inductive Subcommand where
  | info : Subcommand
deriving DecidableEq, Repr

/-- The parsed per-run context: which subcommand (if any) was requested,
and whether the `--no-splash` flag was supplied (default `False`). -/
structure Invocation where
  subcommand : Option Subcommand
  no_splash : Bool
deriving DecidableEq, Repr

/-- The `main` callback (`invoke_without_command=True`): shows the splash
when no subcommand was invoked or the flag was not supplied.  The call
`show_splash_window()` uses the default duration. -/
def main_callback (invoked_subcommand : Option Subcommand) (no_splash : Bool) :
    List Event :=
  if invoked_subcommand = none ∨ ¬ no_splash then show_splash_window else []

/-- The handler trace for the requested subcommand, if any. -/
def dispatch : Option Subcommand → List Event
  | some Subcommand.info => info_command
  | none => []

/-- The full effect trace of one process run: the callback runs first,
then the subcommand handler (typer invokes the callback before the
subcommand). -/
def runTrace (inv : Invocation) : List Event :=
  main_callback inv.subcommand inv.no_splash ++ dispatch inv.subcommand

/-- Exit code of a run that parses successfully: always 0 (the program
never sets a nonzero exit status itself). -/
def runExitCode (_ : Invocation) : Nat := 0

/-- The splash presenter ran during this invocation: its render event
appears in the trace (no other code path renders the centered panel). -/
def splashRan (inv : Invocation) : Prop :=
  Event.render centered ∈ runTrace inv

instance (inv : Invocation) : Decidable (splashRan inv) := by
  unfold splashRan; infer_instance

/-- Substring containment on character lists. -/
def charsContain (sub : List Char) : List Char → Bool
  | [] => sub.isEmpty
  | c :: rest => sub.isPrefixOf (c :: rest) || charsContain sub rest

/-- `containsSub s sub` holds when `sub` occurs contiguously in `s`. -/
def containsSub (s sub : String) : Bool :=
  charsContain sub.toList s.toList

/-- The plain text carried by a rich `Text`: its segments concatenated. -/
def RichText.plain (t : RichText) : String :=
  t.segments.foldl (fun acc seg => acc ++ seg.text) ""

/-- All text visible in a rendered panel: its content plus the subtitle
caption on the border. -/
def RichPanel.renderedText (p : RichPanel) : String :=
  p.content.plain ++ p.subtitle

/-- Total time (in seconds) the trace spends blocked in sleeps. -/
def totalSleep : List Event → ℚ
  | [] => 0
  | Event.sleep d :: rest => d + totalSleep rest
  | _ :: rest => totalSleep rest

/-- `true` exactly on clear events. -/
def Event.isClear : Event → Bool
  | Event.clear => true
  | _ => false

/-- `true` exactly on sleep events. -/
def Event.isSleep : Event → Bool
  | Event.sleep _ => true
  | _ => false

end CLIBuddy

namespace CLIBuddy

/-- C1: the splash presenter runs if and only if no subcommand was
requested or the `--no-splash` flag was not supplied; equivalently it is
skipped exactly when a subcommand was requested and the flag was given. -/
theorem splash_runs_iff (inv : Invocation) :
    splashRan inv ↔ (inv.subcommand = none ∨ inv.no_splash = false) := by
  rcases inv with ⟨sub, flag⟩
  rcases sub with _ | c
  · cases flag <;> decide
  · cases c; cases flag <;> decide

/-- C2: with `--no-splash` and no subcommand the splash still runs, the
trace is exactly one splash presentation, and the exit code is 0. -/
theorem no_splash_alone_still_splashes :
    splashRan ⟨none, true⟩ ∧
    runTrace ⟨none, true⟩ = show_splash_window 2 ∧
    runExitCode ⟨none, true⟩ = 0 := by
  refine ⟨by decide, rfl, rfl⟩

/-- C3: `info --no-splash` skips the splash entirely (the trace is just
the single info print, with no clear, render, or sleep), the printed line
contains "Info command", and the exit code is 0. -/
theorem info_no_splash_skips_splash :
    ¬ splashRan ⟨some Subcommand.info, true⟩ ∧
    runTrace ⟨some Subcommand.info, true⟩ =
      [Event.print "[bold] Info command [/bold]"] ∧
    containsSub "[bold] Info command [/bold]" "Info command" = true ∧
    runExitCode ⟨some Subcommand.info, true⟩ = 0 := by
  refine ⟨by decide, rfl, by decide, rfl⟩

/-- C4: each call of the splash presenter performs, in order: clear;
render the title content in a bordered container centered horizontally
and vertically with a dimmed loading caption on the border; sleep for the
given duration; clear again. -/
theorem show_splash_window_order (d : ℚ) :
    show_splash_window d =
      [Event.clear, Event.render centered, Event.sleep d, Event.clear] ∧
    centered.horizontal = "center" ∧
    centered.vertical = "middle" ∧
    centered.panel.border_style = "bright_blue" ∧
    centered.panel.subtitle = "[dim]Loading ... [/dim]" ∧
    containsSub centered.panel.subtitle "Loading" = true := by
  refine ⟨rfl, rfl, rfl, rfl, rfl, by decide⟩

/-- C5: the splash duration defaults to 2.0 seconds and the dispatcher
never overrides it: the callback invokes the presenter with its default,
and every sleep event in any run's trace has duration exactly 2. -/
theorem splash_duration_always_default :
    (main_callback none false = show_splash_window 2) ∧
    ∀ (inv : Invocation) (d : ℚ),
      Event.sleep d ∈ runTrace inv → d = 2 := by
  refine ⟨rfl, ?_⟩
  intro inv d hmem
  rcases inv with ⟨sub, flag⟩
  rcases sub with _ | c
  · cases flag <;>
      simp [runTrace, main_callback, dispatch, show_splash_window] at hmem <;>
      exact hmem
  · cases c
    cases flag <;>
      simp [runTrace, main_callback, dispatch, show_splash_window,
        info_command] at hmem
    exact hmem

/-- Witness for C5 at the default invocation. -/
theorem splash_duration_always_default_witness :
    Event.sleep 2 ∈ runTrace ⟨none, false⟩ ∧ (2 : ℚ) = 2 :=
  ⟨by decide, splash_duration_always_default.2 ⟨none, false⟩ 2 (by decide)⟩

/-- C6: for every duration `d > 0`, a splash presentation with duration
`d` blocks for at least `d` seconds (its trace sleeps for `d` in total,
and `time.sleep` suspends for at least its argument). -/
theorem splash_blocks_at_least (d : ℚ) (_hd : 0 < d) :
    d ≤ totalSleep (show_splash_window d) := by
  simp [show_splash_window, totalSleep]

/-- Witness for C6 at duration 1. -/
theorem splash_blocks_at_least_witness :
    0 < (1 : ℚ) ∧ (1 : ℚ) ≤ totalSleep (show_splash_window 1) :=
  ⟨by norm_num, splash_blocks_at_least 1 (by norm_num)⟩

/-- C7: the splash's rendered output contains the literal substrings
"CLI Buddy v0.1.0" and "Loading", and the content sits in a bordered
panel (a container with a border style). -/
theorem splash_render_content :
    containsSub splash_panel.renderedText "CLI Buddy v0.1.0" = true ∧
    containsSub splash_panel.renderedText "Loading" = true ∧
    splash_panel.border_style = "bright_blue" := by
  refine ⟨by decide, by decide, rfl⟩

/-- C8: the presenter validates nothing: even for a non-positive
duration it performs its full effect sequence unchanged and raises no
error of its own. -/
theorem show_splash_window_no_validation (d : ℚ) (_hd : d ≤ 0) :
    show_splash_window d =
      [Event.clear, Event.render centered, Event.sleep d, Event.clear] :=
  rfl

/-- Witness for C8 at duration -1. -/
theorem show_splash_window_no_validation_witness :
    (-1 : ℚ) ≤ 0 ∧
    show_splash_window (-1) =
      [Event.clear, Event.render centered, Event.sleep (-1), Event.clear] :=
  ⟨by norm_num, show_splash_window_no_validation (-1) (by norm_num)⟩

/-- C9: the program is deterministic: the effect trace and exit code are
functions of the parsed argument vector alone, so two runs on equal
invocations produce identical effects. -/
theorem run_deterministic (inv₁ inv₂ : Invocation) (h : inv₁ = inv₂) :
    runTrace inv₁ = runTrace inv₂ ∧ runExitCode inv₁ = runExitCode inv₂ := by
  subst h; exact ⟨rfl, rfl⟩

/-- Witness for C9 at the default invocation. -/
theorem run_deterministic_witness :
    runTrace ⟨none, false⟩ = runTrace ⟨none, false⟩ ∧
    runExitCode ⟨none, false⟩ = runExitCode ⟨none, false⟩ :=
  run_deterministic ⟨none, false⟩ ⟨none, false⟩ rfl

/-- C10: the info handler only prints one styled line (no clear, no
sleep), and in any run where the splash did not run the terminal is never
cleared. -/
theorem info_only_prints :
    info_command = [Event.print "[bold] Info command [/bold]"] ∧
    (∀ e ∈ info_command, e.isClear = false ∧ e.isSleep = false) ∧
    ∀ inv : Invocation, ¬ splashRan inv → Event.clear ∉ runTrace inv := by
  refine ⟨rfl, by decide, ?_⟩
  intro inv hns
  rcases inv with ⟨sub, flag⟩
  rcases sub with _ | c
  · cases flag <;> exact absurd (by decide) hns
  · cases c
    cases flag
    · exact absurd (by decide) hns
    · decide

/-- Witness for C10 at the skipped-splash invocation. -/
theorem info_only_prints_witness :
    ¬ splashRan ⟨some Subcommand.info, true⟩ ∧
    Event.clear ∉ runTrace ⟨some Subcommand.info, true⟩ :=
  ⟨by decide, info_only_prints.2.2 ⟨some Subcommand.info, true⟩ (by decide)⟩

end CLIBuddy
